import Mathlib

/-!
Verification development for the AI agent server (TypeScript sources
`src/agent-server.ts` and `src/vectorStore.ts`).

Shallow embedding conventions:
* Strings are Lean `String`s; where substring reasoning is needed we work on
  `List Char` via `String.toList`.  `Char.toLower` models JavaScript
  `toLowerCase` (the trigger word is ASCII, where the two agree).
* The session store (`sessionMemory`, a JS object keyed by session id) is a
  total function `String → List Message`, missing keys defaulting to `[]`
  exactly as `sessionMemory[sessionId] || []` does.
* External effects (the Pinecone query, a plugin invocation, the Gemini
  `fetch`) are oracles passed in as explicit arguments describing the outcome
  the external world produced; a thrown JS exception is an `Except.error` /
  `FetchOutcome.throw` value, and the embedded `try`/`catch` structure mirrors
  the source control flow.
* The pipeline additionally returns a `RAGTrace` recording which external
  calls actually happened (the context handed to the generation client, the
  history window handed to context assembly); the user-visible return value
  of `generateRAGResponse` is the `response` field of that trace.
-/

/-- A role-tagged chat message, `{ role: string; content: string }` in
`agent-server.ts`. -/
structure Message where
  role : String
  content : String
deriving DecidableEq, Repr

/-- The session store: `sessionMemory` in `agent-server.ts` (line 18), a record
from session id to message list, modelled as a total function with default
`[]`. -/
def SessionMap : Type := String → List Message

/-- The store before any request: every session reads as `[]`. -/
def emptySessions : SessionMap := fun _ => []

/-- `getSessionMessages` (line 21): `sessionMemory[sessionId] || []`. -/
def getSessionMessages (st : SessionMap) (sessionId : String) : List Message :=
  st sessionId

/-- `addMessageToSession` (lines 22-24):
`sessionMemory[sessionId] = [...(sessionMemory[sessionId] || []), message]`. -/
def addMessageToSession (st : SessionMap) (sessionId : String) (message : Message) :
    SessionMap :=
  fun id => if id = sessionId then st id ++ [message] else st id

/-- A retrieved chunk as produced by `getRelevantChunks` in `vectorStore.ts`
(lines 163-167).  The similarity `score` (a float defaulted to 0) is carried
by the source but never read by the orchestrator, so it is omitted from the
embedding. -/
structure RetrievedChunk where
  content : String
  source : String
deriving DecidableEq, Repr

/-- `detectPlugin` (`agent-server.ts` lines 31-40):
`message.toLowerCase().includes('weather')` returns `'weather'`, else `null`;
the surrounding `try`/`catch` returns `null` on any failure, and the embedded
function is total so the catch arm is unreachable here. -/
def detectPlugin (message : String) : Option String :=
  if "weather".toList <:+: message.toList.map Char.toLower then some "weather"
  else none

/-- The capability type of a plugin: the source capabilities are async and may
reject, so the embedding returns `Except Unit String`. -/
def Plugin : Type := String → Except Unit String

/-- The `weather` plugin (line 28):
`async (location) => Weather in LOCATION: 24°C, Sunny`; it never rejects. -/
def weatherPlugin : Plugin :=
  fun location => Except.ok ("Weather in " ++ location ++ ": 24°C, Sunny")

/-- The plugin registry `plugins` (lines 27-29), a string-keyed table holding
only the weather plugin. -/
def plugins : String → Option Plugin :=
  fun name => if name = "weather" then some weatherPlugin else none

/-- Lines 101-103: detect a plugin and, when one is detected, invoke
`registry[pluginType](message)`.  A detected name absent from the registry
makes the JS code call `undefined`, which throws, hence `Except.error`;
a rejecting capability also yields `Except.error`. -/
def invokePlugin (registry : String → Option Plugin) (message : String) :
    Except Unit (Option String) :=
  match detectPlugin message with
  | none => Except.ok none
  | some pluginType =>
    match registry pluginType with
    | none => Except.error ()
    | some capability => (capability message).map some

/-- One part of the Gemini response body: `{ text?: string }`. -/
structure GeminiPart where
  text : Option String
deriving DecidableEq, Repr

/-- `content` of a Gemini candidate: `{ parts?: GeminiPart[] }`. -/
structure GeminiContent where
  parts : Option (List GeminiPart)
deriving DecidableEq, Repr

/-- One Gemini candidate: `{ content?: GeminiContent }`. -/
structure GeminiCandidate where
  content : Option GeminiContent
deriving DecidableEq, Repr

/-- A decoded Gemini JSON body: `{ candidates?: GeminiCandidate[] }`. -/
structure GeminiData where
  candidates : Option (List GeminiCandidate)
deriving DecidableEq, Repr

/-- Line 76: `data.candidates?.[0]?.content?.parts?.[0]?.text`, optional
chaining embedded as `Option.bind`. -/
def extractText (data : GeminiData) : Option String :=
  (((data.candidates.bind List.head?).bind GeminiCandidate.content).bind
      (fun c => c.parts.bind List.head?)).bind GeminiPart.text

/-- Outcome of the `fetch` to the Gemini endpoint, as observed by
`generateWithGemini`: the request throws, returns a non-2xx status with a
body, or returns 2xx with a decoded JSON body. -/
inductive FetchOutcome where
  | throw : FetchOutcome
  | httpError (status : Nat) (body : String) : FetchOutcome
  | ok (data : GeminiData) : FetchOutcome
deriving DecidableEq, Repr

/-- Fallback returned on a non-2xx Gemini status (line 69). -/
def fallbackServiceError : String :=
  "Sorry, I\x27m having trouble generating a response right now."

/-- Fallback returned when the expected text field is missing (line 80). -/
def fallbackFormat : String :=
  "I received an unexpected response format from the AI service."

/-- Fallback returned when the request itself throws (line 86); the same
literal is returned by the `catch` of `generateRAGResponse` (line 142). -/
def fallbackRequestFailed : String :=
  "Sorry, I encountered an error while generating a response."

/-- `generateWithGemini` (lines 43-88).  The prompt, message and context only
shape the outgoing request body, so the returned string depends on the fetch
outcome alone: throw → catch fallback; non-2xx → service fallback; 2xx with a
missing-or-falsy text field (`!generatedText`, so `undefined` and `""` alike)
→ format fallback; otherwise the extracted text. -/
def generateWithGemini (_prompt _message _context : String)
    (fetch : FetchOutcome) : String :=
  match fetch with
  | FetchOutcome.throw => fallbackRequestFailed
  | FetchOutcome.httpError _ _ => fallbackServiceError
  | FetchOutcome.ok data =>
    match extractText data with
    | none => fallbackFormat
    | some generatedText =>
      if generatedText = "" then fallbackFormat else generatedText

/-- JavaScript `Array.prototype.join(sep)`: empty array gives `""`, otherwise
the elements interleaved with `sep`. -/
def joinSep (sep : String) : List String → String
  | [] => ""
  | [x] => x
  | x :: y :: xs => x ++ sep ++ joinSep sep (y :: xs)

/-- Line 111: `[Document I+1 from SOURCE]: CONTENT` for the chunk at 0-based
index `i`. -/
def documentLine (i : Nat) (chunk : RetrievedChunk) : String :=
  "[Document " ++ toString (i + 1) ++ " from " ++ chunk.source ++ "]: " ++
    chunk.content

/-- Line 123: `User: CONTENT` when `role === 'user'`, else `AI: CONTENT`. -/
def historyLine (m : Message) : String :=
  (if m.role = "user" then "User" else "AI") ++ ": " ++ m.content

/-- The documents group of `contextParts` (lines 108-113): header plus one
entry per chunk, empty when no chunks were retrieved. -/
def documentsParts (chunks : List RetrievedChunk) : List String :=
  if 0 < chunks.length then "Relevant Documents:" :: chunks.mapIdx documentLine
  else []

/-- The plugin group of `contextParts` (lines 115-117): pushed only when
`pluginResult` is truthy, i.e. present and non-empty. -/
def pluginParts (pluginResult : Option String) : List String :=
  match pluginResult with
  | none => []
  | some s => if s = "" then [] else ["Plugin Output: " ++ s]

/-- The history group of `contextParts` (lines 120-125): header plus one
entry per message of the window, empty when the window is empty. -/
def historyParts (history : List Message) : List String :=
  if 0 < history.length then "Conversation History:" :: history.map historyLine
  else []

/-- Lines 106-127: build `contextParts` and join with `'\n\n'`.  Note the
source pushes every header and line as its own array element and joins the
whole array, so the blank-line separator falls between every two consecutive
parts, not only between sections. -/
def buildContext (chunks : List RetrievedChunk) (pluginResult : Option String)
    (history : List Message) : String :=
  joinSep "\n\n"
    (documentsParts chunks ++ pluginParts pluginResult ++ historyParts history)

/-- Line 98: `sessionMessages.slice(-2)` — the last two messages (all of them
when fewer than two exist). -/
def lastTwoMessages (sessionMessages : List Message) : List Message :=
  sessionMessages.drop (sessionMessages.length - 2)

/-- The fixed system prompt of lines 131-136 (a template literal whose
embedded indentation is part of the string). -/
def systemPrompt : String :=
  "You are a helpful AI assistant that answers questions based on the provided context.\n      Guidelines:\n      1. Be concise but helpful\n      2. Use the context when relevant\n      3. If you used a tool/plugin, mention it\n      4. Maintain a friendly tone"

/-- Observable outcome of one `generateRAGResponse` run: the returned string,
the context actually handed to `generateWithGemini` (`none` when the Gemini
call never happened), and the history window actually handed to context
assembly (`none` when assembly never happened). -/
structure RAGTrace where
  response : String
  geminiCall : Option String
  historyWindow : Option (List Message)
deriving DecidableEq, Repr

/-- `generateRAGResponse` (lines 91-144), instrumented.  The whole body sits
in one `try`: a throw from `getRelevantChunks` (retrieval oracle) or from the
plugin invocation jumps to the `catch` (line 140-143), which returns the fixed
fallback — in that case no context is assembled and Gemini is not called.
Otherwise the context is built from the retrieved chunks, the plugin result
and the `slice(-2)` history window, and `generateWithGemini` is called. -/
def generateRAGResponseT (message : String) (sessionMessages : List Message)
    (retrieval : Except Unit (List RetrievedChunk))
    (registry : String → Option Plugin) (fetch : FetchOutcome) : RAGTrace :=
  match retrieval with
  | Except.error _ => ⟨fallbackRequestFailed, none, none⟩
  | Except.ok relevantChunks =>
    let window := lastTwoMessages sessionMessages
    match invokePlugin registry message with
    | Except.error _ => ⟨fallbackRequestFailed, none, none⟩
    | Except.ok pluginResult =>
      let context := buildContext relevantChunks pluginResult window
      ⟨generateWithGemini systemPrompt message context fetch,
        some context, some window⟩

/-- The string `generateRAGResponse` resolves with. -/
def generateRAGResponse (message : String) (sessionMessages : List Message)
    (retrieval : Except Unit (List RetrievedChunk))
    (registry : String → Option Plugin) (fetch : FetchOutcome) : String :=
  (generateRAGResponseT message sessionMessages retrieval registry fetch).response

/-- The parsed body of a `POST /agent/message` request; a field absent from
the JSON body destructures to `undefined`, hence `Option`. -/
structure AgentRequest where
  message : Option String
  session_id : Option String
deriving DecidableEq, Repr

/-- JS truthiness test `!x` for an optional string field: `undefined` and the
empty string are falsy. -/
def isFalsy : Option String → Bool
  | none => true
  | some s => s = ""

/-- The JSON body of a response: `{response: ...}` or `{error: ...}`. -/
inductive ResponseBody where
  | response (text : String) : ResponseBody
  | error (text : String) : ResponseBody
deriving DecidableEq, Repr

/-- An HTTP response: status code plus JSON body. -/
structure HttpResponse where
  status : Nat
  body : ResponseBody
deriving DecidableEq, Repr

/-- The `POST /agent/message` handler (lines 147-170): validate both fields
(`!message || !session_id` → 400, store untouched), append the user message,
run the RAG pipeline against the session state that now includes it, append
the assistant message, answer 200.  The embedded pipeline is total, so the
handler's own `catch` (500) is unreachable in the model. -/
def postAgentMessage (req : AgentRequest) (st : SessionMap)
    (retrieval : Except Unit (List RetrievedChunk))
    (registry : String → Option Plugin) (fetch : FetchOutcome) :
    HttpResponse × SessionMap :=
  if isFalsy req.message || isFalsy req.session_id then
    (⟨400, ResponseBody.error "Both message and session_id are required"⟩, st)
  else
    let message := req.message.getD ""
    let sessionId := req.session_id.getD ""
    let st1 := addMessageToSession st sessionId ⟨"user", message⟩
    let response := generateRAGResponse message (getSessionMessages st1 sessionId)
      retrieval registry fetch
    let st2 := addMessageToSession st1 sessionId ⟨"assistant", response⟩
    (⟨200, ResponseBody.response response⟩, st2)

/-- `chunkText` (`vectorStore.ts` lines 56-62): the loop
`for (i = 0; i < text.length; i += chunkSize) push(text.substring(i, i + chunkSize))`
as recursion on the remaining text.  A zero `chunkSize` would not terminate in
the source; the embedding returns `[]` there, and every claim assumes a
positive chunk size. -/
def chunkText (text : List Char) (chunkSize : Nat) : List (List Char) :=
  if text = [] ∨ chunkSize = 0 then []
  else text.take chunkSize :: chunkText (text.drop chunkSize) chunkSize
termination_by text.length
decreasing_by
  rename_i h
  push_neg at h
  have ht : text.length ≠ 0 := by simpa using h.1
  simp only [List.length_drop]
  omega

/-- Assembly as claim C3 reads it: lines within a section are on consecutive
lines (joined with a single newline) and only the sections themselves are
separated by a blank line. -/
def specClaimAssemble (chunks : List RetrievedChunk) (pluginResult : Option String)
    (history : List Message) : String :=
  joinSep "\n\n"
    ((if 0 < chunks.length then
        [joinSep "\n" ("Relevant Documents:" :: chunks.mapIdx documentLine)]
      else []) ++
      pluginParts pluginResult ++
      (if 0 < history.length then
        [joinSep "\n" ("Conversation History:" :: history.map historyLine)]
      else []))

/-- Assembly as amended: same section order and omission rule, but every part
(headers, per-chunk lines, the plugin line and per-message lines alike) is
separated from the next by the blank-line separator, so each multi-line
section is itself joined with the blank line. -/
def specAmendedAssemble (chunks : List RetrievedChunk) (pluginResult : Option String)
    (history : List Message) : String :=
  joinSep "\n\n"
    ((if 0 < chunks.length then
        [joinSep "\n\n" ("Relevant Documents:" :: chunks.mapIdx documentLine)]
      else []) ++
      pluginParts pluginResult ++
      (if 0 < history.length then
        [joinSep "\n\n" ("Conversation History:" :: history.map historyLine)]
      else []))

theorem joinSep_append (sep : String) (a b : List String) (ha : a ≠ []) (hb : b ≠ []) :
    joinSep sep (a ++ b) = joinSep sep a ++ sep ++ joinSep sep b := by
  induction a with
  | nil => exact absurd rfl ha
  | cons x a ih =>
    cases a with
    | nil =>
      cases b with
      | nil => exact absurd rfl hb
      | cons y ys => rfl
    | cons z zs =>
      have step : joinSep sep ((x :: z :: zs) ++ b) =
          x ++ sep ++ joinSep sep ((z :: zs) ++ b) := rfl
      rw [step, ih (by simp), joinSep]
      simp [String.append_assoc]

theorem joinSep_singleton (sep x : String) : joinSep sep [x] = x := rfl

theorem joinSep_wrap_left (sep : String) (g rest : List String) :
    joinSep sep ((if g = [] then [] else [joinSep sep g]) ++ rest) =
    joinSep sep (g ++ rest) := by
  by_cases hg : g = []
  · simp [hg]
  · simp only [if_neg hg]
    by_cases hr : rest = []
    · subst hr; simp [joinSep_singleton]
    · rw [joinSep_append sep [joinSep sep g] rest (by simp) hr,
        joinSep_append sep g rest hg hr, joinSep_singleton]

theorem joinSep_wrap_right (sep : String) (pre g : List String) :
    joinSep sep (pre ++ (if g = [] then [] else [joinSep sep g])) =
    joinSep sep (pre ++ g) := by
  by_cases hg : g = []
  · simp [hg]
  · simp only [if_neg hg]
    by_cases hp : pre = []
    · subst hp; simp [joinSep_singleton]
    · rw [joinSep_append sep pre [joinSep sep g] hp (by simp),
        joinSep_append sep pre g hp hg, joinSep_singleton]

theorem joinSep_three_groups (sep : String) (g1 g2 g3 : List String) :
    joinSep sep (g1 ++ g2 ++ g3) =
    joinSep sep ((if g1 = [] then [] else [joinSep sep g1]) ++ g2 ++
      (if g3 = [] then [] else [joinSep sep g3])) := by
  conv_rhs => rw [List.append_assoc, joinSep_wrap_left, ← List.append_assoc,
    joinSep_wrap_right]

theorem exists_infix_map {α β : Type} (f : α → β) (w : List β) (l : List α) :
    w <:+: l.map f ↔ ∃ s, s <:+: l ∧ s.map f = w := by
  constructor
  · rintro ⟨t, u, htu⟩
    have h1 : List.map f l = (t ++ w) ++ u := by
      rw [← htu]
    rcases List.map_eq_append_iff.mp h1 with ⟨l₁, l₂, rfl, hmap1, hmap2⟩
    rcases List.map_eq_append_iff.mp hmap1 with ⟨l₃, l₄, rfl, hmap3, hmap4⟩
    exact ⟨l₄, ⟨l₃, l₂, by simp⟩, hmap4⟩
  · rintro ⟨s, hs, rfl⟩
    exact hs.map f

theorem invokePlugin_plugins_ok (m : String) :
    ∃ r, invokePlugin plugins m = Except.ok r := by
  unfold invokePlugin detectPlugin
  split_ifs with hw
  · exact ⟨some ("Weather in " ++ m ++ ": 24°C, Sunny"), rfl⟩
  · exact ⟨none, rfl⟩

theorem chunkText_nil (cs : Nat) : chunkText [] cs = [] := by
  rw [chunkText]; simp

theorem chunkText_flatten (t : List Char) (cs : Nat) :
    0 < cs → (chunkText t cs).flatten = t := by
  induction t, cs using chunkText.induct with
  | case1 t cs hbase =>
    intro hcs
    rcases hbase with rfl | rfl
    · simp [chunkText_nil]
    · omega
  | case2 t cs hne ih =>
    intro hcs
    rw [chunkText, if_neg hne, List.flatten_cons, ih hcs, List.take_append_drop]

theorem chunkText_length_le (t : List Char) (cs : Nat) :
    0 < cs → ∀ c ∈ chunkText t cs, c.length ≤ cs := by
  induction t, cs using chunkText.induct with
  | case1 t cs hbase =>
    intro hcs c hc
    rcases hbase with rfl | rfl
    · rw [chunkText_nil] at hc; simp at hc
    · omega
  | case2 t cs hne ih =>
    intro hcs c hc
    rw [chunkText, if_neg hne] at hc
    rcases List.mem_cons.mp hc with rfl | hc
    · simp [List.length_take]
    · exact ih hcs c hc

theorem chunkText_internal (t : List Char) (cs : Nat) :
    0 < cs → ∀ i : Nat, i + 1 < (chunkText t cs).length →
      ((chunkText t cs).getD i []).length = cs := by
  induction t, cs using chunkText.induct with
  | case1 t cs hbase =>
    intro hcs i hi
    rcases hbase with rfl | rfl
    · rw [chunkText_nil] at hi; simp at hi
    · omega
  | case2 t cs hne ih =>
    intro hcs i hi
    rw [chunkText, if_neg hne] at hi ⊢
    cases i with
    | zero =>
      have hrest : chunkText (t.drop cs) cs ≠ [] := by
        intro h0
        rw [h0] at hi
        simp at hi
      have hdrop : t.drop cs ≠ [] := by
        intro h0
        rw [h0, chunkText_nil] at hrest
        exact hrest rfl
      have hlen : cs < t.length := by
        by_contra hle
        push_neg at hle
        exact hdrop (List.drop_eq_nil_of_le hle)
      rw [List.getD_cons_zero, List.length_take]
      omega
    | succ j =>
      rw [List.getD_cons_succ]
      apply ih hcs
      simpa using hi

/-- Claim C1, counterexample: on a request whose retrieval throws, the code
does not call the generation client at all (and returns the catch fallback),
contradicting the claim that a context is still assembled and the generation
client still called. -/
theorem retrieval_throw_skips_generation_cex :
    (generateRAGResponseT "hello" [] (Except.error ()) plugins
      FetchOutcome.throw).geminiCall = none ∧
    (generateRAGResponseT "hello" [] (Except.error ()) plugins
      FetchOutcome.throw).response = fallbackRequestFailed := by
  exact ⟨rfl, rfl⟩

/-- Claim C1, amended: if getRelevantChunks raises, generateRAGResponse
absorbs the error in its catch and resolves with the fixed fallback string;
no context is assembled and the generation client is not called, so the
request is answered rather than crashed, but not by a degraded Gemini call. -/
theorem retrieval_throw_absorbed (message : String)
    (sessionMessages : List Message) (registry : String → Option Plugin)
    (fetch : FetchOutcome) :
    generateRAGResponseT message sessionMessages (Except.error ()) registry
      fetch = ⟨fallbackRequestFailed, none, none⟩ := rfl

/-- Claim C2, counterexample: with a registered plugin whose invocation
rejects, a request triggering it makes the pipeline return the catch fallback
without calling the generation client, contradicting the claim that a context
is still assembled and the generation client still called. -/
theorem plugin_throw_skips_generation_cex :
    (generateRAGResponseT "weather" [] (Except.ok [⟨"c", "s"⟩])
      (fun _ => some (fun _ => Except.error ())) FetchOutcome.throw).geminiCall
      = none ∧
    (generateRAGResponseT "weather" [] (Except.ok [⟨"c", "s"⟩])
      (fun _ => some (fun _ => Except.error ())) FetchOutcome.throw).response
      = fallbackRequestFailed := by
  constructor <;> rfl

/-- Claim C2, amended: a plugin capability that throws never crashes the
request and the error is not propagated to the end user, but the pipeline
does not continue either: the throw reaches the catch of generateRAGResponse,
which resolves with the fixed fallback string without assembling a context or
calling the generation client. -/
theorem plugin_throw_absorbed (message : String) (sessionMessages : List Message)
    (chunks : List RetrievedChunk) (registry : String → Option Plugin)
    (fetch : FetchOutcome) (p : String) (g : Plugin)
    (hdet : detectPlugin message = some p) (hreg : registry p = some g)
    (hfail : g message = Except.error ()) :
    generateRAGResponseT message sessionMessages (Except.ok chunks) registry
      fetch = ⟨fallbackRequestFailed, none, none⟩ := by
  simp [generateRAGResponseT, invokePlugin, hdet, hreg, hfail, Except.map]

/-- Witness for the amended claim C2 at a concrete throwing plugin. -/
theorem plugin_throw_absorbed_witness :
    detectPlugin "weather" = some "weather" ∧
    (fun (_ : String) => some (fun (_ : String) =>
      (Except.error () : Except Unit String))) "weather" =
      some (fun _ => Except.error ()) ∧
    (fun (_ : String) => (Except.error () : Except Unit String)) "weather" =
      Except.error () ∧
    generateRAGResponseT "weather" [⟨"user", "hi"⟩] (Except.ok [])
      (fun _ => some (fun _ => Except.error ())) FetchOutcome.throw =
      ⟨fallbackRequestFailed, none, none⟩ := by
  refine ⟨by decide, rfl, rfl, ?_⟩
  exact plugin_throw_absorbed "weather" [⟨"user", "hi"⟩] []
    (fun _ => some (fun _ => Except.error ())) FetchOutcome.throw "weather"
    (fun _ => Except.error ()) (by decide) rfl rfl

/-- Claim C3, counterexample: already with a single retrieved chunk the
assembled context differs from the claimed format, because the source joins
every pushed part with the blank-line separator, so a blank line also falls
between the Documents header and the first document line. -/
theorem context_sections_only_cex :
    buildContext [⟨"a", "s1"⟩] none [] ≠ specClaimAssemble [⟨"a", "s1"⟩] none []
    := by decide

/-- Claim C3, amended: the context consists of the Documents section, the
plugin line and the History section in this order, each omitted entirely when
its input is empty, but a blank line separates every two consecutive parts
(headers and individual lines included), not only the sections. -/
theorem context_blank_line_between_all_parts (chunks : List RetrievedChunk)
    (pluginResult : Option String) (history : List Message) :
    buildContext chunks pluginResult history =
    specAmendedAssemble chunks pluginResult history := by
  unfold buildContext specAmendedAssemble
  rw [joinSep_three_groups]
  by_cases hc : 0 < chunks.length <;> by_cases hh : 0 < history.length <;>
    simp [documentsParts, historyParts, hc, hh]

/-- Claim C4: a request with a missing message or missing session id is
answered 400 with the exact validation error body and the session map is
returned unchanged, before any side effect. -/
theorem missing_field_rejected (req : AgentRequest) (st : SessionMap)
    (retrieval : Except Unit (List RetrievedChunk))
    (registry : String → Option Plugin) (fetch : FetchOutcome)
    (h : req.message = none ∨ req.session_id = none) :
    postAgentMessage req st retrieval registry fetch =
      (⟨400, ResponseBody.error "Both message and session_id are required"⟩, st)
    := by
  rcases h with h | h <;> simp [postAgentMessage, h, isFalsy]

/-- Witness for claim C4 at a request with no message field. -/
theorem missing_field_rejected_witness :
    ((⟨none, some "s1"⟩ : AgentRequest).message = none ∨
      (⟨none, some "s1"⟩ : AgentRequest).session_id = none) ∧
    postAgentMessage ⟨none, some "s1"⟩ emptySessions (Except.ok []) plugins
      FetchOutcome.throw =
      (⟨400, ResponseBody.error "Both message and session_id are required"⟩,
        emptySessions) :=
  ⟨Or.inl rfl, missing_field_rejected ⟨none, some "s1"⟩ emptySessions
    (Except.ok []) plugins FetchOutcome.throw (Or.inl rfl)⟩

/-- Claim C9: a request whose message or session id is present but equal to
the empty string is rejected exactly like a missing field, with no session
mutation, because the falsiness check treats the empty string as missing. -/
theorem empty_field_rejected (req : AgentRequest) (st : SessionMap)
    (retrieval : Except Unit (List RetrievedChunk))
    (registry : String → Option Plugin) (fetch : FetchOutcome)
    (h : req.message = some "" ∨ req.session_id = some "") :
    postAgentMessage req st retrieval registry fetch =
      (⟨400, ResponseBody.error "Both message and session_id are required"⟩, st)
    := by
  rcases h with h | h <;> simp [postAgentMessage, h, isFalsy]

/-- Witness for claim C9 at a request with an empty message field. -/
theorem empty_field_rejected_witness :
    ((⟨some "", some "s1"⟩ : AgentRequest).message = some "" ∨
      (⟨some "", some "s1"⟩ : AgentRequest).session_id = some "") ∧
    postAgentMessage ⟨some "", some "s1"⟩ emptySessions (Except.ok []) plugins
      FetchOutcome.throw =
      (⟨400, ResponseBody.error "Both message and session_id are required"⟩,
        emptySessions) :=
  ⟨Or.inl rfl, empty_field_rejected ⟨some "", some "s1"⟩ emptySessions
    (Except.ok []) plugins FetchOutcome.throw (Or.inl rfl)⟩

/-- Claim C5: the intent detector answers the plugin name weather exactly when
the message contains the substring weather in any letter-casing (a substring
whose lowercasing is the trigger word), and none otherwise; being a total
function of the embedding it never raises. -/
theorem detect_weather_iff_substring (m : String) :
    (detectPlugin m = some "weather" ↔
      ∃ s, s <:+: m.toList ∧ s.map Char.toLower = "weather".toList) ∧
    (detectPlugin m = none ↔
      ¬ ∃ s, s <:+: m.toList ∧ s.map Char.toLower = "weather".toList) := by
  have key : ("weather".toList <:+: m.toList.map Char.toLower) ↔
      ∃ s, s <:+: m.toList ∧ s.map Char.toLower = "weather".toList :=
    exists_infix_map Char.toLower "weather".toList m.toList
  unfold detectPlugin
  split_ifs with hw
  · exact ⟨iff_of_true rfl (key.mp hw),
      iff_of_false (by simp) (not_not_intro (key.mp hw))⟩
  · exact ⟨iff_of_false (by simp) ((not_congr key).mp hw),
      iff_of_true rfl ((not_congr key).mp hw)⟩

/-- Claim C6: the generation client is total and maps each failure kind to its
own fixed fallback: request throw, non-2xx status and a missing text field
each produce one of three pairwise distinct non-empty strings, so the caller
always receives a string. -/
theorem gemini_failures_fallback (prompt message context : String)
    (status : Nat) (body : String) (data : GeminiData)
    (hmissing : extractText data = none) :
    generateWithGemini prompt message context FetchOutcome.throw =
      fallbackRequestFailed ∧
    generateWithGemini prompt message context (FetchOutcome.httpError status body)
      = fallbackServiceError ∧
    generateWithGemini prompt message context (FetchOutcome.ok data) =
      fallbackFormat ∧
    fallbackRequestFailed ≠ "" ∧ fallbackServiceError ≠ "" ∧
    fallbackFormat ≠ "" ∧
    fallbackRequestFailed ≠ fallbackServiceError ∧
    fallbackRequestFailed ≠ fallbackFormat ∧
    fallbackServiceError ≠ fallbackFormat := by
  refine ⟨rfl, rfl, ?_, by decide, by decide, by decide, by decide, by decide,
    by decide⟩
  simp [generateWithGemini, hmissing]

/-- Witness for claim C6 at a response body with no candidates. -/
theorem gemini_failures_fallback_witness :
    extractText ⟨none⟩ = none ∧
    (generateWithGemini "p" "m" "c" FetchOutcome.throw =
        fallbackRequestFailed ∧
      generateWithGemini "p" "m" "c" (FetchOutcome.httpError 500 "boom") =
        fallbackServiceError ∧
      generateWithGemini "p" "m" "c" (FetchOutcome.ok ⟨none⟩) =
        fallbackFormat ∧
      fallbackRequestFailed ≠ "" ∧ fallbackServiceError ≠ "" ∧
      fallbackFormat ≠ "" ∧
      fallbackRequestFailed ≠ fallbackServiceError ∧
      fallbackRequestFailed ≠ fallbackFormat ∧
      fallbackServiceError ≠ fallbackFormat) :=
  ⟨rfl, gemini_failures_fallback "p" "m" "c" 500 "boom" ⟨none⟩ rfl⟩

/-- Claim C7: the history window handed to context assembly is the slice(-2)
of the session messages read at that point: a suffix of the session history
(hence oldest-first) whose length is the minimum of two and the history
length, so it is short only when the whole history is and never exceeds two. -/
theorem history_window_last_two (l : List Message) (msg : String)
    (chunks : List RetrievedChunk) (fetch : FetchOutcome) :
    (generateRAGResponseT msg l (Except.ok chunks) plugins fetch).historyWindow
      = some (lastTwoMessages l) ∧
    lastTwoMessages l <:+ l ∧
    (lastTwoMessages l).length = min 2 l.length := by
  refine ⟨?_, List.drop_suffix _ _, ?_⟩
  · obtain ⟨r, hr⟩ := invokePlugin_plugins_ok msg
    simp [generateRAGResponseT, hr]
  · simp only [lastTwoMessages, List.length_drop]
    omega

/-- Claim C8: for a positive chunk size, chunkText cuts the text into pieces
that concatenate back to the text, are each at most the chunk size long, and
are exactly the chunk size long except possibly the last one. -/
theorem chunkText_fixed_size_partition (t : List Char) (cs : Nat)
    (h : 0 < cs) :
    (chunkText t cs).flatten = t ∧
    (∀ c ∈ chunkText t cs, c.length ≤ cs) ∧
    (∀ i : Nat, i + 1 < (chunkText t cs).length →
      ((chunkText t cs).getD i []).length = cs) :=
  ⟨chunkText_flatten t cs h, chunkText_length_le t cs h,
    chunkText_internal t cs h⟩

/-- Witness for claim C8 on a seven-character text with chunk size three. -/
theorem chunkText_fixed_size_partition_witness :
    0 < 3 ∧
    ((chunkText "letter!".toList 3).flatten = "letter!".toList ∧
      (∀ c ∈ chunkText "letter!".toList 3, c.length ≤ 3) ∧
      (∀ i : Nat, i + 1 < (chunkText "letter!".toList 3).length →
        ((chunkText "letter!".toList 3).getD i []).length = 3)) :=
  ⟨by decide, chunkText_fixed_size_partition "letter!".toList 3 (by decide)⟩

/-- Claim C10: a request that passes validation gets a 200 response carrying
some string, and its session gains exactly the user message followed by the
assistant message at the end, other sessions being untouched; in particular
the session length grows by exactly two and existing messages are neither
removed nor reordered. -/
theorem valid_request_appends_two (req : AgentRequest) (st : SessionMap)
    (retrieval : Except Unit (List RetrievedChunk))
    (registry : String → Option Plugin) (fetch : FetchOutcome)
    (m sid : String) (hm : req.message = some m) (hm0 : m ≠ "")
    (hs : req.session_id = some sid) (hs0 : sid ≠ "") :
    ∃ a : String,
      (postAgentMessage req st retrieval registry fetch).1 =
        ⟨200, ResponseBody.response a⟩ ∧
      (postAgentMessage req st retrieval registry fetch).2 sid =
        st sid ++ [⟨"user", m⟩, ⟨"assistant", a⟩] ∧
      ((postAgentMessage req st retrieval registry fetch).2 sid).length =
        (st sid).length + 2 ∧
      ∀ id, id ≠ sid →
        (postAgentMessage req st retrieval registry fetch).2 id = st id := by
  refine ⟨generateRAGResponse m (st sid ++ [⟨"user", m⟩]) retrieval registry
    fetch, ?_, ?_, ?_, ?_⟩
  · simp [postAgentMessage, hm, hs, isFalsy, hm0, hs0, addMessageToSession,
      getSessionMessages]
  · simp [postAgentMessage, hm, hs, isFalsy, hm0, hs0, addMessageToSession,
      getSessionMessages]
  · simp [postAgentMessage, hm, hs, isFalsy, hm0, hs0, addMessageToSession,
      getSessionMessages]
  · intro id hid
    simp [postAgentMessage, hm, hs, isFalsy, hm0, hs0, addMessageToSession,
      getSessionMessages, hid]

/-- Witness for claim C10 at a concrete valid request on a fresh store. -/
theorem valid_request_appends_two_witness :
    (⟨some "hi", some "s1"⟩ : AgentRequest).message = some "hi" ∧
    "hi" ≠ "" ∧
    (⟨some "hi", some "s1"⟩ : AgentRequest).session_id = some "s1" ∧
    "s1" ≠ "" ∧
    ∃ a : String,
      (postAgentMessage ⟨some "hi", some "s1"⟩ emptySessions (Except.ok [])
        plugins FetchOutcome.throw).1 = ⟨200, ResponseBody.response a⟩ ∧
      (postAgentMessage ⟨some "hi", some "s1"⟩ emptySessions (Except.ok [])
        plugins FetchOutcome.throw).2 "s1" =
        emptySessions "s1" ++ [⟨"user", "hi"⟩, ⟨"assistant", a⟩] ∧
      ((postAgentMessage ⟨some "hi", some "s1"⟩ emptySessions (Except.ok [])
        plugins FetchOutcome.throw).2 "s1").length =
        (emptySessions "s1").length + 2 ∧
      ∀ id, id ≠ "s1" →
        (postAgentMessage ⟨some "hi", some "s1"⟩ emptySessions (Except.ok [])
          plugins FetchOutcome.throw).2 id = emptySessions id :=
  ⟨rfl, by decide, rfl, by decide,
    valid_request_appends_two ⟨some "hi", some "s1"⟩ emptySessions
      (Except.ok []) plugins FetchOutcome.throw "hi" "s1" rfl (by decide) rfl
      (by decide)⟩
